import Mathlib

/-!
Shallow embedding of the zedder titlebar widget
(`src/crates/collab_ui/src/collab_titlebar_item.rs` and
`src/crates/header_ui/src/titlebar_item.rs`) together with the facts the
specification states about it.

Strings are modelled as `List Char`; maps of the user store are modelled as
association lists; the toolkit's fallible branch-list builder is an explicit
function parameter returning `Except`.
-/

namespace Zedder

/-- Mirrors `const MAX_PROJECT_NAME_LENGTH: usize = 40`. -/
def MAX_PROJECT_NAME_LENGTH : Nat := 40

/-- Mirrors `const MAX_BRANCH_NAME_LENGTH: usize = 40`. -/
def MAX_BRANCH_NAME_LENGTH : Nat := 40

/-- The ellipsis marker character U+2026. -/
def ellipsisChar : Char := Char.ofNat 8230

/-- Modelled from the spec: `util::truncate_and_trailoff` lives in the external
`util` crate, which is not part of this repository's sources; the spec gives
its contract as: given a string and a maximum length N, return the original
string unchanged if its length is at most N, otherwise a prefix ending in an
ellipsis marker whose total displayed length is exactly N. -/
def truncate_and_trailoff (s : List Char) (maxChars : Nat) : List Char :=
  if s.length ≤ maxChars then s
  else s.take (maxChars - 1) ++ [ellipsisChar]

/-- Mirrors `project::RepositoryEntry` as used here: an optional branch name. -/
structure RepositoryEntry where
  branch : Option (List Char)
deriving DecidableEq

/-- Mirrors a `project::Worktree` as read by the titlebar: a root name and an
optional root repository (git) entry. -/
structure Worktree where
  root_name : List Char
  root_git_entry : Option RepositoryEntry
deriving DecidableEq

/-- Mirrors the host record returned by `Project::host()`: a user id plus the
peer id used for the follow action. -/
structure Host where
  user_id : Nat
  peer_id : Nat
deriving DecidableEq

/-- Mirrors `project::Project` as read by the titlebar: an optional host and
the ordered sequence of visible worktrees. -/
structure Project where
  host : Option Host
  visible_worktrees : List Worktree
deriving DecidableEq

/-- Mirrors `client::User`: id, github login (display handle), avatar uri. -/
structure User where
  id : Nat
  github_login : List Char
  avatar_uri : List Char
deriving DecidableEq

/-- Mirrors `client::UserStore` as read by the titlebar: the user cache, the
participant color-index map, and the optional current (signed-in) user. -/
structure UserStore where
  users : List (Nat × User)
  participant_indices : List (Nat × Nat)
  current_user : Option User
deriving DecidableEq

/-- Mirrors `UserStore::get_cached_user(user_id)`. -/
def UserStore.get_cached_user (us : UserStore) (user_id : Nat) : Option User :=
  us.users.lookup user_id

/-- Mirrors `UserStore::participant_indices().get(&id)`. -/
def UserStore.participant_index (us : UserStore) (user_id : Nat) : Option Nat :=
  us.participant_indices.lookup user_id

/-- Opaque stand-in for `workspace::Workspace`; the weak handle of the widget
is modelled as `Option Workspace` (upgrade succeeds iff `some`). -/
structure Workspace where
  id : Nat
deriving DecidableEq

/-- Opaque stand-in for `vcs_menu::BranchList`, carrying its focus handle. -/
structure BranchList where
  focus_handle : Nat
deriving DecidableEq

/-- Error messages of the fallible branch-list builder. -/
abbrev ErrMsg := List Char

/-- What `render_project_host` yields on success: the host's display handle,
the participant color index, and the peer id captured for the follow action. -/
structure HostButton where
  github_login : List Char
  color_index : Nat
  follow_peer_id : Nat
deriving DecidableEq

/-- Mirrors `CollabTitlebarItem::render_project_host`: `host()?`, then
`get_cached_user(host.user_id)?`, then `participant_indices().get(&host_user.id)?`,
each short-circuiting to `none`. -/
def render_project_host (project : Project) (user_store : UserStore) :
    Option HostButton := do
  let host ← project.host
  let host_user ← user_store.get_cached_user host.user_id
  let participant_index ← user_store.participant_index host_user.id
  pure ⟨host_user.github_login, participant_index, host.peer_id⟩

/-- What `render_project_name` yields: the button label and whether a project
is selected (the button is muted exactly when not selected). -/
structure ProjectNameButton where
  label : List Char
  is_project_selected : Bool
deriving DecidableEq

/-- The fallback label used when no worktree is present. -/
def openRecentLabel : List Char := "Open recent project".data

/-- Mirrors `render_project_name` (identical in both variants): take the first
visible worktree's root name, truncate it to `MAX_PROJECT_NAME_LENGTH`;
if there is none, use the fallback label with muted (unselected) styling. -/
def render_project_name (project : Project) : ProjectNameButton :=
  match (project.visible_worktrees.map Worktree.root_name).head? with
  | some name => ⟨truncate_and_trailoff name MAX_PROJECT_NAME_LENGTH, true⟩
  | none => ⟨openRecentLabel, false⟩

/-- Outcome of activating the branch popover: the overlay view if built, the
focus handle focus moved to, and the errors logged (and suppressed). -/
structure PopoverOutcome where
  view : Option BranchList
  focused : Option Nat
  logged : List ErrMsg
deriving DecidableEq

/-- Mirrors `render_vcs_popover`: `build_branch_list(...).log_err()?` —
on error the failure is logged and `none` returned with no focus transfer;
on success the view is returned and focus moves to its focus handle. -/
def render_vcs_popover (build_result : Except ErrMsg BranchList) : PopoverOutcome :=
  match build_result with
  | Except.error e => ⟨none, none, [e]⟩
  | Except.ok view => ⟨some view, some view.focus_handle, []⟩

/-- The rendered branch slot: the trigger's label and the popover outcome its
menu callback would produce on activation. -/
structure BranchSlot where
  trigger_label : List Char
  on_activate : PopoverOutcome
deriving DecidableEq

/-- Mirrors `render_project_branch` (identical in both variants): take the
first visible worktree's `root_git_entry` (`.next().flatten()`), require the
weak workspace handle to upgrade, then require that entry's branch, truncated
to `MAX_BRANCH_NAME_LENGTH`; the menu callback runs `render_vcs_popover` on
the builder applied to the upgraded workspace. -/
def render_project_branch (project : Project) (workspace_weak : Option Workspace)
    (build_branch_list : Workspace → Except ErrMsg BranchList) :
    Option BranchSlot := do
  let entry := Option.join (project.visible_worktrees.map Worktree.root_git_entry).head?
  let workspace ← workspace_weak
  let branch_name ← (entry.bind RepositoryEntry.branch).map
    (fun branch => truncate_and_trailoff branch MAX_BRANCH_NAME_LENGTH)
  pure ⟨branch_name, render_vcs_popover (build_branch_list workspace)⟩

/-- An entry of a context menu: a named action or a separator. -/
inductive MenuEntry where
  | action : List Char → MenuEntry
  | separator : MenuEntry
deriving DecidableEq

/-- Label of the Settings action. -/
def settingsLabel : List Char := "Settings".data

/-- Label of the Extensions action. -/
def extensionsLabel : List Char := "Extensions".data

/-- Label of the Themes action in the collab variant. -/
def themesDotsLabel : List Char := "Themes...".data

/-- Label of the Themes action in the header variant. -/
def themesLabel : List Char := "Themes".data

/-- Label of the Sign Out action. -/
def signOutLabel : List Char := "Sign Out".data

/-- The signed-in menu content of `CollabTitlebarItem::render_user_menu_button`. -/
def signedInMenuItems : List MenuEntry :=
  [MenuEntry.action settingsLabel, MenuEntry.action extensionsLabel,
   MenuEntry.action themesDotsLabel, MenuEntry.separator,
   MenuEntry.action signOutLabel]

/-- The signed-out menu content of `CollabTitlebarItem::render_user_menu_button`. -/
def signedOutMenuItems : List MenuEntry :=
  [MenuEntry.action settingsLabel, MenuEntry.action extensionsLabel,
   MenuEntry.action themesDotsLabel]

/-- What the collab variant's user-menu button renders: its menu items and
whether the trigger shows an avatar. -/
structure UserMenuButton where
  items : List MenuEntry
  has_avatar : Bool
deriving DecidableEq

/-- Mirrors `CollabTitlebarItem::render_user_menu_button`: keyed on whether
the user store reports a current user. -/
def render_user_menu_button (user_store : UserStore) : UserMenuButton :=
  match user_store.current_user with
  | some _ => ⟨signedInMenuItems, true⟩
  | none => ⟨signedOutMenuItems, false⟩

/-- The apostrophe character U+0027. -/
def apostropheChar : Char := Char.ofNat 39

/-- The literal greeting text of the what's-up label, up to the user name. -/
def whatsUpGreeting : List Char :=
  ['w', 'h', 'a', 't', apostropheChar, 's', ' ', 'u', 'p', ',', ' ']

/-- Mirrors `render_whats_up` / the header trigger label: the environment
variable USER (an `Option` at render time), defaulted to the empty string,
formatted into the greeting. -/
def render_whats_up (env_user : Option (List Char)) : List Char :=
  whatsUpGreeting ++ env_user.getD []

/-- The menu content of `TitlebarItem::render_user_menu_button` (header
variant): no signed-in distinction, no separator, no sign-out. -/
def headerMenuItems : List MenuEntry :=
  [MenuEntry.action settingsLabel, MenuEntry.action extensionsLabel,
   MenuEntry.action themesLabel]

/-- What the header variant's user-menu button renders: the what's-up trigger
label and the fixed menu items. -/
structure HeaderUserMenuButton where
  trigger_label : List Char
  items : List MenuEntry
deriving DecidableEq

/-- Mirrors `TitlebarItem::render_user_menu_button`: the trigger shows the
what's-up greeting read from the environment at render time; the menu is the
fixed three-item list. -/
def header_render_user_menu_button (env_user : Option (List Char)) :
    HeaderUserMenuButton :=
  ⟨render_whats_up env_user, headerMenuItems⟩

/-- Abstract rendered control occupying a slot of the titlebar. -/
inductive Control where
  | projectHost : HostButton → Control
  | projectName : ProjectNameButton → Control
  | projectBranch : List Char → Control
  | whatsUp : List Char → Control
  | userMenu : UserMenuButton → Control
  | headerUserMenu : HeaderUserMenuButton → Control
deriving DecidableEq

/-- Whether a control is the collab user-menu trigger. -/
def Control.isUserMenu : Control → Bool
  | Control.userMenu _ => true
  | _ => false

/-- The rendered titlebar: its left-side and right-side children, in order. -/
structure TitlebarRender where
  left : List Control
  right : List Control
deriving DecidableEq

/-- Mirrors the `CollabTitlebarItem` widget state captured at construction:
the project, the user store, and the weak workspace handle. The environment
is not part of this state. -/
structure CollabTitlebarItem where
  project : Project
  user_store : UserStore
  workspace : Option Workspace
deriving DecidableEq

/-- Mirrors `CollabTitlebarItem::new`: captures project, user store and the
weak workspace handle; reads no environment variable. -/
def CollabTitlebarItem.new (workspace : Workspace) (project : Project)
    (user_store : UserStore) : CollabTitlebarItem :=
  ⟨project, user_store, some workspace⟩

/-- Mirrors `Render::render for CollabTitlebarItem`: left side is the host
button (if any), the project-name button, and the branch trigger (if any);
right side is only the what's-up label, computed from the environment value
probed during this render pass. -/
def collab_render (item : CollabTitlebarItem) (env_user : Option (List Char))
    (build_branch_list : Workspace → Except ErrMsg BranchList) : TitlebarRender :=
  ⟨((render_project_host item.project item.user_store).map Control.projectHost).toList
    ++ [Control.projectName (render_project_name item.project)]
    ++ ((render_project_branch item.project item.workspace build_branch_list).map
        (fun slot => Control.projectBranch slot.trigger_label)).toList,
   [Control.whatsUp (render_whats_up env_user)]⟩

/-- Mirrors the `TitlebarItem` widget state (header variant) captured at
construction: the project and the weak workspace handle. -/
structure TitlebarItem where
  project : Project
  workspace : Option Workspace
deriving DecidableEq

/-- Mirrors `Render::render for TitlebarItem` (header variant): left side is
the project-name button and the branch trigger (if any); right side is the
user-menu button whose trigger is the what's-up label. -/
def header_render (item : TitlebarItem) (env_user : Option (List Char))
    (build_branch_list : Workspace → Except ErrMsg BranchList) : TitlebarRender :=
  ⟨[Control.projectName (render_project_name item.project)]
    ++ ((render_project_branch item.project item.workspace build_branch_list).map
        (fun slot => Control.projectBranch slot.trigger_label)).toList,
   [Control.headerUserMenu (header_render_user_menu_button env_user)]⟩

/-! Concrete fixtures used by witnesses and counterexamples. -/

/-- A concrete workspace. -/
def ws0 : Workspace := ⟨0⟩

/-- A branch-list builder that always succeeds. -/
def builderOk : Workspace → Except ErrMsg BranchList := fun _ => Except.ok ⟨0⟩

/-- A concrete branch name. -/
def mainBranch : List Char := "main".data

/-- A worktree whose root repository entry is absent. -/
def wtNoBranch : Worktree := ⟨"alpha".data, none⟩

/-- A worktree whose root repository entry carries the branch `main`. -/
def wtMain : Worktree := ⟨"beta".data, some ⟨some mainBranch⟩⟩

/-- A project whose first worktree has no branch and whose second does. -/
def projTwo : Project := ⟨none, [wtNoBranch, wtMain]⟩

/-- A concrete cached user. -/
def alice : User := ⟨5, "alice".data, "a.png".data⟩

/-- A user store where `alice` is cached, is a session participant with color
index 3, and is the current (signed-in) user. -/
def usFull : UserStore := ⟨[(5, alice)], [(5, 3)], some alice⟩

/-- A signed-out, empty user store. -/
def usSignedOut : UserStore := ⟨[], [], none⟩

/-- A project hosted by user id 5 over peer id 7. -/
def pHosted : Project := ⟨some ⟨5, 7⟩, []⟩

/-- A constructed collab widget over `projTwo` and `usFull`. -/
def item0 : CollabTitlebarItem := CollabTitlebarItem.new ws0 projTwo usFull

/-! Helper lemmas, shared by several claim theorems. -/

/-- When the bound is positive, truncation never exceeds it. -/
theorem truncate_length_le (s : List Char) (n : Nat) (h : 1 ≤ n) :
    (truncate_and_trailoff s n).length ≤ n := by
  by_cases h2 : s.length ≤ n
  · simp [truncate_and_trailoff, h2]
  · simp only [truncate_and_trailoff, h2, if_false, List.length_append,
      List.length_take, List.length_cons, List.length_nil]
    omega

/-- When the bound is positive and the string overflows it, the truncated
string has length exactly the bound. -/
theorem truncate_length_exact (s : List Char) (n : Nat) (h : 1 ≤ n)
    (h2 : n < s.length) : (truncate_and_trailoff s n).length = n := by
  have h3 : ¬ s.length ≤ n := Nat.not_le.mpr h2
  simp only [truncate_and_trailoff, h3, if_false, List.length_append,
    List.length_take, List.length_cons, List.length_nil]
  omega

/-- Characterization of `render_project_branch` in terms of the first
worktree's git entry. -/
theorem render_project_branch_spec (p : Project) (ws : Option Workspace)
    (b : Workspace → Except ErrMsg BranchList) :
    render_project_branch p ws b = ws.bind (fun w =>
      ((Option.join (p.visible_worktrees.map Worktree.root_git_entry).head?).bind
          RepositoryEntry.branch).map
        (fun branch =>
          ⟨truncate_and_trailoff branch MAX_BRANCH_NAME_LENGTH,
           render_vcs_popover (b w)⟩)) := by
  cases ws with
  | none => rfl
  | some w =>
    show Option.bind
        (((Option.join (p.visible_worktrees.map Worktree.root_git_entry).head?).bind
            RepositoryEntry.branch).map
          (fun branch => truncate_and_trailoff branch MAX_BRANCH_NAME_LENGTH))
        (fun branch_name => some (BranchSlot.mk branch_name (render_vcs_popover (b w)))) =
      ((Option.join (p.visible_worktrees.map Worktree.root_git_entry).head?).bind
          RepositoryEntry.branch).map
        (fun branch =>
          BranchSlot.mk (truncate_and_trailoff branch MAX_BRANCH_NAME_LENGTH)
            (render_vcs_popover (b w)))
    cases (Option.join (p.visible_worktrees.map Worktree.root_git_entry).head?).bind
        RepositoryEntry.branch with
    | none => rfl
    | some branch => rfl

/-! Claim theorems. -/

/-- C1 (counterexample): in `projTwo` the first worktree has no branch while
the second carries `main`, yet `render_project_branch` returns `none` — it
does not scan past the first worktree, so the claimed first-with-branch rule
fails at this concrete input. -/
theorem C1_counterexample :
    ((projTwo.visible_worktrees.get? 1).bind
        (fun wt => wt.root_git_entry.bind RepositoryEntry.branch)) = some mainBranch ∧
    (projTwo.visible_worktrees.head?.bind
        (fun wt => wt.root_git_entry.bind RepositoryEntry.branch)) = none ∧
    render_project_branch projTwo (some ws0) builderOk = none ∧
    (render_project_branch projTwo (some ws0) builderOk).map BranchSlot.trigger_label ≠
      some (truncate_and_trailoff mainBranch MAX_BRANCH_NAME_LENGTH) := by
  refine ⟨rfl, rfl, rfl, ?_⟩
  have h0 : render_project_branch projTwo (some ws0) builderOk = none := rfl
  rw [h0]
  simp

/-- C1 (amended): `render_project_branch` consults only the first visible
worktree — the rendered trigger label is the first worktree's root git
entry's branch, truncated, and `none` when the first worktree lacks an entry
or a branch, regardless of later worktrees. -/
theorem C1_branch_from_first_worktree_only (p : Project) (w : Workspace)
    (b : Workspace → Except ErrMsg BranchList) :
    (render_project_branch p (some w) b).map BranchSlot.trigger_label =
      ((p.visible_worktrees.head?.bind Worktree.root_git_entry).bind
          RepositoryEntry.branch).map
        (fun branch => truncate_and_trailoff branch MAX_BRANCH_NAME_LENGTH) := by
  rw [render_project_branch_spec]
  have hj : Option.join (p.visible_worktrees.map Worktree.root_git_entry).head? =
      p.visible_worktrees.head?.bind Worktree.root_git_entry := by
    cases p.visible_worktrees with
    | nil => rfl
    | cons wt rest => rfl
  rw [hj]
  cases (p.visible_worktrees.head?.bind Worktree.root_git_entry).bind
      RepositoryEntry.branch with
  | none => rfl
  | some branch => rfl

/-- A one-character string, used to refute the truncation claim at bound 0. -/
def oneCharString : List Char := ['a']

/-- C2 (counterexample): at maximum length 0 the truncated nonempty string
still contains the ellipsis marker, so its length exceeds the bound — the
claim's length bound fails for N = 0. -/
theorem C2_counterexample :
    ¬ (truncate_and_trailoff oneCharString 0).length ≤ 0 := by
  decide

/-- C2 (amended): for every bound N ≥ 1, truncation yields a string of length
at most N; strings of length at most N pass through unchanged; longer strings
become a prefix followed by the ellipsis marker, of length exactly N; hence
the project-name label and every rendered branch label never exceed 40. -/
theorem C2_truncate_contract (s : List Char) (n : Nat) (h : 1 ≤ n) :
    (truncate_and_trailoff s n).length ≤ n ∧
    (s.length ≤ n → truncate_and_trailoff s n = s) ∧
    (n < s.length →
      truncate_and_trailoff s n = s.take (n - 1) ++ [ellipsisChar] ∧
      (truncate_and_trailoff s n).length = n) ∧
    (∀ p : Project, (render_project_name p).label.length ≤ 40) ∧
    (∀ (p : Project) (ws : Option Workspace)
        (b : Workspace → Except ErrMsg BranchList) (slot : BranchSlot),
      render_project_branch p ws b = some slot → slot.trigger_label.length ≤ 40) := by
  refine ⟨truncate_length_le s n h, ?_, ?_, ?_, ?_⟩
  · intro h2
    simp [truncate_and_trailoff, h2]
  · intro h2
    refine ⟨?_, truncate_length_exact s n h h2⟩
    simp [truncate_and_trailoff, Nat.not_le.mpr h2]
  · intro p
    unfold render_project_name
    cases (p.visible_worktrees.map Worktree.root_name).head? with
    | some name =>
      simpa [MAX_PROJECT_NAME_LENGTH] using
        truncate_length_le name 40 (by omega)
    | none => simp [openRecentLabel]
  · intro p ws b slot hslot
    rw [render_project_branch_spec] at hslot
    cases ws with
    | none => exact Option.noConfusion hslot
    | some w =>
      simp only [Option.some_bind] at hslot
      cases hb : (Option.join (p.visible_worktrees.map Worktree.root_git_entry).head?).bind
          RepositoryEntry.branch with
      | none => rw [hb] at hslot; simp at hslot
      | some branch =>
        rw [hb] at hslot
        have h2 := Option.some.inj hslot
        rw [← h2]
        simpa [MAX_BRANCH_NAME_LENGTH] using
          truncate_length_le branch 40 (by omega)

/-- C2 (witness): concrete applications — a short string passes through
unchanged at bound 1, and a four-character string truncated at bound 2 has
length exactly 2. -/
theorem C2_truncate_contract_witness :
    truncate_and_trailoff oneCharString 1 = oneCharString ∧
    (truncate_and_trailoff ("abcd".data) 2).length = 2 :=
  ⟨(C2_truncate_contract oneCharString 1 (by decide)).2.1 (by decide),
   ((C2_truncate_contract ("abcd".data) 2 (by decide)).2.2.1 (by decide)).2⟩

/-- C9: truncation is idempotent for every string and every bound. -/
theorem C9_truncate_idempotent (s : List Char) (n : Nat) :
    truncate_and_trailoff (truncate_and_trailoff s n) n = truncate_and_trailoff s n := by
  by_cases h : s.length ≤ n
  · simp [truncate_and_trailoff, h]
  · rcases Nat.eq_zero_or_pos n with hn | hn
    · subst hn
      simp [truncate_and_trailoff, h]
    · have hlen : (truncate_and_trailoff s n).length = n :=
        truncate_length_exact s n hn (Nat.not_le.mp h)
      have hdef : truncate_and_trailoff (truncate_and_trailoff s n) n =
          if (truncate_and_trailoff s n).length ≤ n then truncate_and_trailoff s n
          else (truncate_and_trailoff s n).take (n - 1) ++ [ellipsisChar] := rfl
      rw [hdef, if_pos (le_of_eq hlen)]

/-- C3: `render_project_name` uses the first worktree's root name, truncated
to 40, marked selected; an empty worktree sequence yields the fallback label
`Open recent project`, unselected (muted). -/
theorem C3_project_name_resolver (p : Project) :
    (p.visible_worktrees = [] →
      render_project_name p = ⟨openRecentLabel, false⟩) ∧
    (∀ wt rest, p.visible_worktrees = wt :: rest →
      render_project_name p = ⟨truncate_and_trailoff wt.root_name 40, true⟩) := by
  constructor
  · intro h
    simp [render_project_name, h]
  · intro wt rest h
    simp [render_project_name, h, MAX_PROJECT_NAME_LENGTH]

/-- C3 (witness): concrete empty and non-empty worktree sequences. -/
theorem C3_project_name_resolver_witness :
    render_project_name ⟨none, []⟩ = ⟨openRecentLabel, false⟩ ∧
    render_project_name ⟨none, [wtMain]⟩ =
      ⟨truncate_and_trailoff wtMain.root_name 40, true⟩ :=
  ⟨(C3_project_name_resolver ⟨none, []⟩).1 rfl,
   (C3_project_name_resolver ⟨none, [wtMain]⟩).2 wtMain [] rfl⟩

/-- C4: `render_project_host` short-circuits to `none` unless the project has
a host, the host's user id is cached, and that user has a participant color
index; on success it yields the display handle, the color index, and the peer
id captured for the follow action. -/
theorem C4_host_resolver (p : Project) (us : UserStore) :
    (p.host = none → render_project_host p us = none) ∧
    (∀ ho, p.host = some ho → us.get_cached_user ho.user_id = none →
      render_project_host p us = none) ∧
    (∀ ho u, p.host = some ho → us.get_cached_user ho.user_id = some u →
      us.participant_index u.id = none →
      render_project_host p us = none) ∧
    (∀ ho u i, p.host = some ho → us.get_cached_user ho.user_id = some u →
      us.participant_index u.id = some i →
      render_project_host p us = some ⟨u.github_login, i, ho.peer_id⟩) := by
  refine ⟨?_, ?_, ?_, ?_⟩
  · intro h
    simp [render_project_host, h]
  · intro ho h1 h2
    simp [render_project_host, h1, h2]
  · intro ho u h1 h2 h3
    simp [render_project_host, h1, h2, h3]
  · intro ho u i h1 h2 h3
    simp [render_project_host, h1, h2, h3]

/-- C4 (witness): the hosted project with the fully cached participant host
resolves to alice's handle, color index 3, and peer id 7. -/
theorem C4_host_resolver_witness :
    render_project_host pHosted usFull = some ⟨alice.github_login, 3, 7⟩ :=
  (C4_host_resolver pHosted usFull).2.2.2 ⟨5, 7⟩ alice 3 rfl rfl rfl

/-- C5: on builder failure `render_vcs_popover` logs and suppresses the error
— no view, no focus transfer; on success it returns the view and moves focus
to it; and the branch trigger's label does not depend on the builder at all. -/
theorem C5_vcs_popover_failure_suppressed (e : ErrMsg) (v : BranchList)
    (p : Project) (w : Workspace)
    (b1 b2 : Workspace → Except ErrMsg BranchList) :
    render_vcs_popover (Except.error e) = ⟨none, none, [e]⟩ ∧
    render_vcs_popover (Except.ok v) = ⟨some v, some v.focus_handle, []⟩ ∧
    (render_project_branch p (some w) b1).map BranchSlot.trigger_label =
      (render_project_branch p (some w) b2).map BranchSlot.trigger_label := by
  refine ⟨rfl, rfl, ?_⟩
  rw [render_project_branch_spec, render_project_branch_spec]
  simp only [Option.some_bind]
  cases (Option.join (p.visible_worktrees.map Worktree.root_git_entry).head?).bind
      RepositoryEntry.branch with
  | none => rfl
  | some branch => rfl

/-- C6: the collab user menu is exactly Settings, Extensions, Themes,
separator, Sign Out when signed in, and exactly Settings, Extensions, Themes
when signed out; the two menus agree exactly on the three shared actions, and
Sign Out and the separator appear only when signed in. -/
theorem C6_user_menu_contents (us : UserStore) :
    (us.current_user.isSome = true →
      render_user_menu_button us = ⟨signedInMenuItems, true⟩) ∧
    (us.current_user = none →
      render_user_menu_button us = ⟨signedOutMenuItems, false⟩) ∧
    (∀ entry : MenuEntry,
      (entry ∈ signedInMenuItems ∧ entry ∈ signedOutMenuItems) ↔
        entry ∈ signedOutMenuItems) ∧
    MenuEntry.separator ∉ signedOutMenuItems ∧
    MenuEntry.action signOutLabel ∉ signedOutMenuItems ∧
    MenuEntry.separator ∈ signedInMenuItems ∧
    MenuEntry.action signOutLabel ∈ signedInMenuItems := by
  refine ⟨?_, ?_, ?_, by decide, by decide, by decide, by decide⟩
  · intro h
    cases hc : us.current_user with
    | none => rw [hc] at h; exact Bool.noConfusion h
    | some u => simp [render_user_menu_button, hc]
  · intro h
    simp [render_user_menu_button, h]
  · intro entry
    constructor
    · exact And.right
    · intro h
      refine ⟨?_, h⟩
      simp only [signedInMenuItems, signedOutMenuItems, List.mem_cons,
        List.not_mem_nil, or_false] at h ⊢
      tauto

/-- C6 (witness): the signed-in store yields the five-entry menu with avatar;
the signed-out store yields the three-entry menu without avatar. -/
theorem C6_user_menu_contents_witness :
    render_user_menu_button usFull = ⟨signedInMenuItems, true⟩ ∧
    render_user_menu_button usSignedOut = ⟨signedOutMenuItems, false⟩ :=
  ⟨(C6_user_menu_contents usFull).1 rfl,
   (C6_user_menu_contents usSignedOut).2.1 rfl⟩

/-- A concrete environment value for the USER variable. -/
def samName : List Char := "sam".data

/-- C7 (counterexample): in a concrete collab render pass the right side
contains no user-menu trigger at all — `render_user_menu_button` is not part
of the rendered tree, refuting the claim that every render pass places it on
the right side. -/
theorem C7_counterexample :
    ((collab_render item0 (some samName) builderOk).right.any Control.isUserMenu)
      = false := by
  rfl

/-- C7 (amended): on every render pass the collab titlebar's right side is
exactly the what's-up label computed from the environment probed during that
render pass — the user-menu button (with its signed-in/out variants) is never
rendered; the header variant's right side is exactly its user-menu trigger,
whose menu is the same fixed list in every state. -/
theorem C7_right_side_contents (item : CollabTitlebarItem) (hitem : TitlebarItem)
    (env_user : Option (List Char))
    (b : Workspace → Except ErrMsg BranchList) :
    (collab_render item env_user b).right =
      [Control.whatsUp (render_whats_up env_user)] ∧
    (collab_render item env_user b).right.any Control.isUserMenu = false ∧
    (header_render hitem env_user b).right =
      [Control.headerUserMenu (header_render_user_menu_button env_user)] ∧
    (header_render_user_menu_button env_user).items = headerMenuItems :=
  ⟨rfl, rfl, rfl, rfl⟩

/-- Another concrete environment value for the USER variable. -/
def bobName : List Char := "bob".data

/-- C8 (counterexample): the same constructed widget renders differently under
two different render-time environment values, so the displayed value is probed
live at each render, not captured once at construction (the constructor
`CollabTitlebarItem.new` takes no environment input at all). -/
theorem C8_counterexample :
    collab_render item0 (some ("alice".data)) builderOk ≠
      collab_render item0 (some bobName) builderOk := by
  decide

/-- C8 (amended): the what's-up value is an environment lookup (USER) with
the empty string as default when unset, performed inside the render pass: the
right side is a function of the environment value supplied at render time,
for a widget state fixed at construction. -/
theorem C8_env_probed_each_render (item : CollabTitlebarItem)
    (env_user : Option (List Char))
    (b : Workspace → Except ErrMsg BranchList) :
    (collab_render item env_user b).right =
      [Control.whatsUp (whatsUpGreeting ++ env_user.getD [])] ∧
    render_whats_up none = whatsUpGreeting := by
  refine ⟨rfl, ?_⟩
  simp [render_whats_up]

/-- C10: when the weak workspace handle no longer upgrades,
`render_project_branch` is `none` — even for projects whose first worktree
carries a branch — and the rendered left side holds only the host button and
the project-name button, no branch trigger. -/
theorem C10_workspace_liveness_required (p : Project) (us : UserStore)
    (env_user : Option (List Char))
    (b : Workspace → Except ErrMsg BranchList) :
    render_project_branch p none b = none ∧
    (collab_render ⟨p, us, none⟩ env_user b).left =
      ((render_project_host p us).map Control.projectHost).toList
        ++ [Control.projectName (render_project_name p)] := by
  refine ⟨rfl, ?_⟩
  have h0 : render_project_branch p none b = none := rfl
  simp [collab_render, h0]

end Zedder
